import Mathlib

/-!
Shallow embedding of the release-orchestration service
(`src/shipit_workflow/shipit_workflow/api.py`).

The persisted data model (Release, Phase) and the three core operations
(`list_releases`, `schedule_phase`, `abandon_release`) are translated from
the source.  The external collaborators that live outside this repository
(`taskcluster.Queue.createTask`, `fetch_actions_json`) are modelled as
oracle functions supplied in an environment, so theorems quantify over
every possible outcome of the external calls; `generate_action_task` and
`render_action_task` (from `shipit_workflow.tasks`, not part of the
sources) are modelled from the spec.

Python exceptions are modelled by `Except`: an operation that raises
before `session.commit()` leaves the persisted state unchanged, because
the mutation is only made durable by the final commit.
-/

namespace Shipit

/-- Error taxonomy: `notFound` models sqlalchemy `NoResultFound` / HTTP 404
and the resolver's missing-manifest failure, `conflict` models the HTTP 409
`Already submitted!` abort, `badRequest` models werkzeug `BadRequest`,
`keyError` models a Python `KeyError` raised by `del d[k]` on a missing
key, `queueError` a failed Taskcluster submission, `generatorError` a
failure inside `generate_action_task`, and `multipleResults` sqlalchemy
`MultipleResultsFound` from `Query.one()`. -/
inductive Err where
  | notFound
  | conflict
  | badRequest
  | keyError
  | queueError
  | generatorError
  | multipleResults
deriving DecidableEq, Repr

/-- Release status enum: `status` column, values `scheduled`, `shipped`,
`aborted`. -/
inductive Status where
  | scheduled
  | shipped
  | aborted
deriving DecidableEq, Repr

/-- A parameter value in an action context's parameter bag (Python values
of heterogeneous type: numbers, strings, lists). -/
inductive PVal where
  | vnat (n : Nat)
  | vstr (s : String)
  | vlist (xs : List String)
deriving DecidableEq, Repr

/-- Phase model (`shipit_workflow.models.Phase`): the columns read or
written by `api.py`. `rendered` is the opaque fully-resolved task
definition blob. -/
structure Phase where
  name : String
  task_id : String
  rendered : String
  submitted : Bool
  completed : Option Nat
  completed_by : Option String
deriving DecidableEq, Repr

/-- Release model (`shipit_workflow.models.Release`): the columns read or
written by `api.py`, owning its list of phases. -/
structure Release where
  name : String
  product : String
  branch : String
  version : String
  build_number : Nat
  status : Status
  phases : List Phase
deriving DecidableEq, Repr

/-- Transient action context produced by `generate_action_task`; `api.py`
only touches its `parameters` dict. -/
structure Context where
  parameters : List (String × PVal)
deriving DecidableEq, Repr

/-- An action task definition as manipulated by `abandon_release`: the
code reads and appends to `task['dependencies']`; `boundInput` is the
caller-supplied action input bound at generation time, `pinnedSource` the
`ACTION_TASK_ID` injected by rendering, `renderedParams` the parameters
substituted into the task at rendering. -/
structure ActionTask where
  dependencies : List String
  boundInput : List (String × PVal)
  pinnedSource : Option String
  renderedParams : List (String × PVal)
deriving DecidableEq, Repr

/-- The actions manifest returned by the Action Task Resolver for a task
group: the declared action names plus the parameter bag carried over from
the original task group. -/
structure ActionsManifest where
  actions : List String
  parameters : List (String × PVal)
deriving DecidableEq, Repr

/-- Outcomes of the external blocking calls made during `abandon_release`:
`fetchActions` is `fetch_actions_json(task_id)` and `createTask` is
`_queue().createTask(task_id, definition)` for cancellation tasks.
(`schedule_phase` takes its own queue oracle because its task definition
is the opaque `phase.rendered` blob.) -/
structure Env where
  fetchActions : String → Except Err ActionsManifest
  createTask : String → ActionTask → Except Err Unit

/-- Modelled from the spec: `generate_action_task` (in
`shipit_workflow.tasks`, not under the sources). It looks `action_name`
up in the manifest, binds the caller input, and produces a deterministic
new task id, the unrendered task skeleton and the context carrying the
manifest's parameter bag; a name absent from the manifest is a generator
failure. -/
def generate_action_task (action_name : String)
    (action_task_input : List (String × PVal)) (actions : ActionsManifest) :
    Except Err (String × ActionTask × Context) :=
  if actions.actions.contains action_name then
    Except.ok ("action-task-" ++ action_name,
      { dependencies := [], boundInput := action_task_input,
        pinnedSource := none, renderedParams := [] },
      { parameters := actions.parameters })
  else
    Except.error Err.generatorError

/-- Modelled from the spec: `render_action_task` (in
`shipit_workflow.tasks`, not under the sources). Substitutes
`context.parameters` into the task and injects `action_task_id` as the
explicit upstream action-task reference. -/
def render_action_task (task : ActionTask) (context : Context)
    (action_task_id : String) : ActionTask :=
  { task with renderedParams := context.parameters,
              pinnedSource := some action_task_id }

/-- The fixed list of oversized parameters deleted in `abandon_release`
before rendering (`api.py` line 168). -/
def long_params : List String :=
  ["existing_tasks", "release_history", "release_partner_config"]

/-- Python `del d[k]` on a dict: removes the key if present, raises
`KeyError` otherwise. -/
def delParam (ps : List (String × PVal)) (k : String) :
    Except Err (List (String × PVal)) :=
  if ps.any (fun kv => kv.1 == k) then
    Except.ok (ps.filter (fun kv => kv.1 != k))
  else
    Except.error Err.keyError

/-- The strip loop of `abandon_release` (`api.py` lines 168-169):
`for long_param in (...): del context['parameters'][long_param]`. -/
def stripContext (ctx : Context) : Except Err Context :=
  match delParam ctx.parameters "existing_tasks" with
  | Except.error e => Except.error e
  | Except.ok ps =>
    match delParam ps "release_history" with
    | Except.error e => Except.error e
    | Except.ok ps =>
      match delParam ps "release_partner_config" with
      | Except.error e => Except.error e
      | Except.ok ps => Except.ok { parameters := ps }

/-- The body of the cancellation loop in `abandon_release` (`api.py`
lines 159-178) for one submitted phase: fetch the actions manifest,
generate a `cancel-all` action task with empty input, strip the oversized
parameters, render with the phase's own `task_id` pinned as
`ACTION_TASK_ID`, append `phase.task_id` to the dependencies, and submit
the result to the queue.  Any step's exception propagates. -/
def cancel_phase (env : Env) (phase : Phase) :
    Except Err (String × ActionTask) :=
  match env.fetchActions phase.task_id with
  | Except.error e => Except.error e
  | Except.ok actions =>
    match generate_action_task "cancel-all" [] actions with
    | Except.error e => Except.error e
    | Except.ok (action_task_id, action_task, context) =>
      match stripContext context with
      | Except.error e => Except.error e
      | Except.ok context =>
        let action_task := render_action_task action_task context phase.task_id
        let action_task :=
          { action_task with
              dependencies := action_task.dependencies ++ [phase.task_id] }
        match env.createTask action_task_id action_task with
        | Except.error e => Except.error e
        | Except.ok _ => Except.ok (action_task_id, action_task)

/-- Runs the cancellation loop over the submitted phases in order,
returning the phases whose pipeline was started, the cancellation tasks
actually accepted by the queue, and the overall outcome.  A raised
exception stops the loop at the failing phase. -/
def cancel_phases (env : Env) :
    List Phase → List Phase × List (String × ActionTask) × Except Err Unit
  | [] => ([], [], Except.ok ())
  | p :: rest =>
    match cancel_phase env p with
    | Except.error e => ([p], [], Except.error e)
    | Except.ok t =>
      (p :: (cancel_phases env rest).1,
       t :: (cancel_phases env rest).2.1,
       (cancel_phases env rest).2.2)

/-- Whether the cancellation pipeline of one phase runs to completion
under the given external outcomes. -/
def cancelOk (env : Env) (p : Phase) : Bool :=
  match cancel_phase env p with
  | Except.ok _ => true
  | Except.error _ => false

/-- `filter(lambda x: x.submitted, release.phases)` (`api.py` line 158). -/
def submitted_phases (r : Release) : List Phase :=
  r.phases.filter (fun p => p.submitted)

/-- What one `abandon_release` request leaves behind: the persisted
release after the request (the commit only happens when no exception was
raised), the phases whose cancellation pipeline was attempted, the
cancellation tasks accepted by the queue, and the reported outcome. -/
structure AbortOutcome where
  persisted : Release
  attempted : List Phase
  tasks : List (String × ActionTask)
  result : Except Err Unit
deriving Repr

/-- `abandon_release` (`api.py` lines 153-184) on an existing release:
cancel every submitted phase; only if the whole loop succeeded, set
`release.status = 'aborted'` and commit.  An exception inside the loop
propagates before the status assignment and the commit, so the persisted
release is unchanged. -/
def abandon_release (env : Env) (r : Release) : AbortOutcome :=
  let (att, ts, res) := cancel_phases env (submitted_phases r)
  match res with
  | Except.ok _ =>
    ⟨{ r with status := Status.aborted }, att, ts, Except.ok ()⟩
  | Except.error e => ⟨r, att, ts, Except.error e⟩

/-- `Query.one()` over the phases of a release with a given name
(`api.py` lines 130-135): exactly one match, else `NoResultFound`
(→ 404) or `MultipleResultsFound`. -/
def lookupPhase (r : Release) (pn : String) : Except Err Phase :=
  match r.phases.filter (fun p => p.name == pn) with
  | [] => Except.error Err.notFound
  | [ph] => Except.ok ph
  | _ => Except.error Err.multipleResults

/-- What one `schedule_phase` request leaves behind: the persisted
release after the request, the `(task_id, definition)` pairs submitted to
the queue, and the reported outcome. -/
structure SubmitOutcome where
  persisted : Release
  queueCalls : List (String × String)
  result : Except Err Release
deriving Repr

/-- `schedule_phase` (`api.py` lines 127-147): look the phase up, reject
an already-submitted phase with 409, submit `phase.task_id` with
`phase.rendered` to the queue, then set `submitted`, `completed_by`
(the actor's identity), `completed` (the current time `now`), flip the
release to `shipped` when every phase is now submitted, and commit.
A queue failure raises before any field is assigned, so nothing is
persisted; `queue` is the external `_queue().createTask` outcome. -/
def schedule_phase (queue : String → String → Except Err Unit)
    (actor : String) (now : Nat) (r : Release) (pn : String) :
    SubmitOutcome :=
  match lookupPhase r pn with
  | Except.error e => ⟨r, [], Except.error e⟩
  | Except.ok ph =>
    if ph.submitted then
      ⟨r, [], Except.error Err.conflict⟩
    else
      match queue ph.task_id ph.rendered with
      | Except.error e => ⟨r, [(ph.task_id, ph.rendered)], Except.error e⟩
      | Except.ok _ =>
        let ph' := { ph with submitted := true,
                             completed_by := some actor,
                             completed := some now }
        let phases' := r.phases.map (fun p => if p.name == pn then ph' else p)
        let status' := if phases'.all (fun p => p.submitted) then
            Status.shipped
          else r.status
        let r' := { r with phases := phases', status := status' }
        ⟨r', [(ph.task_id, ph.rendered)], Except.ok r'⟩

/-- Python truthiness of an optional string query parameter: `None` and
`''` are falsy. -/
def truthyStr : Option String → Bool
  | none => false
  | some s => s != ""

/-- Python truthiness of an optional integer query parameter: `None` and
`0` are falsy. -/
def truthyNat : Option Nat → Bool
  | none => false
  | some n => n != 0

/-- `list_releases` (`api.py` lines 84-100): chain the truthiness-guarded
filters; filtering by `build_number` without a `version` raises
`BadRequest`; the `status` filter always applies, with the signature
default `['scheduled']` when the caller supplies none. -/
def list_releases (db : List Release) (product branch version : Option String)
    (build_number : Option Nat) (status : Option (List Status)) :
    Except Err (List Release) :=
  let rs := db
  let rs := if truthyStr product then
      rs.filter (fun r => r.product == product.getD "")
    else rs
  let rs := if truthyStr branch then
      rs.filter (fun r => r.branch == branch.getD "")
    else rs
  let step : Except Err (List Release) :=
    if truthyStr version then
      let rs := rs.filter (fun r => r.version == version.getD "")
      Except.ok (if truthyNat build_number then
          rs.filter (fun r => r.build_number == build_number.getD 0)
        else rs)
    else if truthyNat build_number then
      Except.error Err.badRequest
    else
      Except.ok rs
  step.map (fun rs =>
    rs.filter (fun r => (status.getD [Status.scheduled]).contains r.status))

/-! Concrete fixtures used to evaluate the theorems on explicit inputs. -/

/-- A queue oracle that accepts every submission. -/
def qOk : String → String → Except Err Unit := fun _ _ => Except.ok ()

/-- A queue oracle whose submissions always fail. -/
def qDown : String → String → Except Err Unit :=
  fun _ _ => Except.error Err.queueError

/-- A pending phase. -/
def phW : Phase :=
  { name := "build", task_id := "T1", rendered := "D1",
    submitted := false, completed := none, completed_by := none }

/-- A release with the single pending phase `phW`. -/
def relW : Release :=
  { name := "Firefox-1.0-build1", product := "firefox", branch := "beta",
    version := "1.0", build_number := 1, status := Status.scheduled,
    phases := [phW] }

/-- An already-submitted phase. -/
def phSub : Phase :=
  { name := "sign", task_id := "T2", rendered := "D2",
    submitted := true, completed := some 5, completed_by := some "bob" }

/-- A release with the single submitted phase `phSub`. -/
def relSub : Release :=
  { name := "Firefox-1.0-build2", product := "firefox", branch := "beta",
    version := "1.0", build_number := 2, status := Status.scheduled,
    phases := [phSub] }

/-- A manifest declaring `cancel-all` whose parameter bag carries all
three oversized keys plus one small parameter. -/
def manifestFull : ActionsManifest :=
  { actions := ["cancel-all"],
    parameters := [("existing_tasks", PVal.vlist ["t1"]),
                   ("release_history", PVal.vstr "h"),
                   ("release_partner_config", PVal.vstr "c"),
                   ("other", PVal.vnat 1)] }

/-- External outcomes where the resolver returns `manifestFull` and the
queue accepts everything. -/
def envOk : Env :=
  { fetchActions := fun _ => Except.ok manifestFull,
    createTask := fun _ _ => Except.ok () }

/-- The manifest of the spec's stripping scenario: parameters
`{existing_tasks: [...], other: 1}` with the other two oversized keys
absent. -/
def manifestMissing : ActionsManifest :=
  { actions := ["cancel-all"],
    parameters := [("existing_tasks", PVal.vlist ["t1", "t2"]),
                   ("other", PVal.vnat 1)] }

/-- External outcomes where the resolver returns `manifestMissing`. -/
def envMissing : Env :=
  { fetchActions := fun _ => Except.ok manifestMissing,
    createTask := fun _ _ => Except.ok () }

/-- External outcomes where the Action Task Resolver is unavailable. -/
def envDown : Env :=
  { fetchActions := fun _ => Except.error Err.notFound,
    createTask := fun _ _ => Except.ok () }

/-- External outcomes where the resolver knows the `build` phase's task
group (`TB`) but no other: cancelling `build` succeeds while cancelling
`sign` fails at the resolver. -/
def envPartial : Env :=
  { fetchActions := fun tid =>
      if tid == "TB" then Except.ok manifestFull
      else Except.error Err.notFound,
    createTask := fun _ _ => Except.ok () }

/-- Submitted `build` phase of the abort scenario. -/
def phBuild : Phase :=
  { name := "build", task_id := "TB", rendered := "DB",
    submitted := true, completed := some 1, completed_by := some "bob" }

/-- Submitted `sign` phase of the abort scenario. -/
def phSign : Phase :=
  { name := "sign", task_id := "TS", rendered := "DS",
    submitted := true, completed := some 2, completed_by := some "bob" }

/-- Pending `publish` phase of the abort scenario. -/
def phPublish : Phase :=
  { name := "publish", task_id := "TP", rendered := "DP",
    submitted := false, completed := none, completed_by := none }

/-- The spec's abort scenario: phases `[build(submitted),
sign(submitted), publish(not submitted)]`. -/
def relScn : Release :=
  { name := "Firefox-1.0-build3", product := "firefox", branch := "beta",
    version := "1.0", build_number := 3, status := Status.scheduled,
    phases := [phBuild, phSign, phPublish] }

/-- A scheduled release with `build_number = 5` and no phases, used for
the `list_releases` filters. -/
def relBn : Release :=
  { name := "Firefox-2.0-build5", product := "firefox", branch := "beta",
    version := "2.0", build_number := 5, status := Status.scheduled,
    phases := [] }

/-! Helper lemmas. -/

lemma lookupPhase_ok (r : Release) (pn : String) (ph : Phase)
    (h : lookupPhase r pn = Except.ok ph) :
    r.phases.filter (fun p => p.name == pn) = [ph] ∧ ph.name = pn := by
  unfold lookupPhase at h
  cases hf : r.phases.filter (fun p => p.name == pn) with
  | nil => rw [hf] at h; simp at h
  | cons a t =>
    cases t with
    | nil =>
      rw [hf] at h
      simp only [Except.ok.injEq] at h
      have ha : a ∈ r.phases.filter (fun p => p.name == pn) := by
        rw [hf]; exact List.mem_singleton_self a
      have hb := List.of_mem_filter ha
      constructor
      · rw [h]
      · rw [← h]
        simpa using hb
    | cons b t2 => rw [hf] at h; simp at h

lemma lookupPhase_of_phases (r' : Release) (pn : String) (ph' : Phase)
    (hp : r'.phases.filter (fun p => p.name == pn) = [ph']) :
    lookupPhase r' pn = Except.ok ph' := by
  unfold lookupPhase
  rw [hp]

lemma filter_update_phases (pn : String) (ph' : Phase) (hname : ph'.name = pn)
    (l : List Phase) :
    (l.map (fun p => if p.name == pn then ph' else p)).filter
        (fun p => p.name == pn)
      = (l.filter (fun p => p.name == pn)).map (fun _ => ph') := by
  induction l with
  | nil => rfl
  | cons x xs ih =>
    by_cases hx : x.name == pn
    · simp only [List.map_cons, hx, if_true, List.filter_cons, hname,
        beq_self_eq_true, ih]
    · simp only [List.map_cons, hx, if_false, List.filter_cons, ih,
        Bool.false_eq_true]

/-- Claim C4: submitting an already-submitted phase fails with `Conflict`
and has no side effect (no queue call, no persisted change); consequently
a second `submit` on a phase just submitted successfully is rejected with
exactly one `Conflict` and makes no queue call. -/
theorem submit_conflict_no_side_effect
    (queue queue2 : String → String → Except Err Unit)
    (actor actor2 : String) (now now2 : Nat) (r : Release) (pn : String)
    (ph : Phase) (h : lookupPhase r pn = Except.ok ph) :
    (ph.submitted = true →
      schedule_phase queue actor now r pn
        = ⟨r, [], Except.error Err.conflict⟩)
    ∧ (∀ r', (schedule_phase queue actor now r pn).result = Except.ok r' →
        schedule_phase queue2 actor2 now2 r' pn
          = ⟨r', [], Except.error Err.conflict⟩) := by
  obtain ⟨hfil, hname⟩ := lookupPhase_ok r pn ph h
  constructor
  · intro hs
    simp [schedule_phase, h, hs]
  · intro r' hr'
    by_cases hs : ph.submitted
    · simp [schedule_phase, h, hs] at hr'
    · cases hq : queue ph.task_id ph.rendered with
      | error e => simp [schedule_phase, h, hs, hq] at hr'
      | ok u =>
        simp only [schedule_phase, h, hs, hq, Bool.false_eq_true,
          if_false, Except.ok.injEq] at hr'
        have hr'phases : r'.phases
            = r.phases.map (fun p => if p.name == pn then
                { ph with submitted := true, completed_by := some actor,
                          completed := some now } else p) := by
          rw [← hr']
        have hlook : lookupPhase r' pn = Except.ok
            { ph with submitted := true, completed_by := some actor,
                      completed := some now } := by
          apply lookupPhase_of_phases
          rw [hr'phases, filter_update_phases pn
            { ph with submitted := true, completed_by := some actor,
                      completed := some now } hname, hfil]
          rfl
        simp [schedule_phase, hlook]

/-- Claim C4 witness: on a concrete release whose only phase is already
submitted, `schedule_phase` returns the 409 conflict outcome untouched. -/
theorem submit_conflict_no_side_effect_witness :
    lookupPhase relSub "sign" = Except.ok phSub
    ∧ phSub.submitted = true
    ∧ schedule_phase qOk "alice" 0 relSub "sign"
        = ⟨relSub, [], Except.error Err.conflict⟩ :=
  ⟨rfl, rfl,
    (submit_conflict_no_side_effect qOk qOk "alice" "alice" 0 0 relSub "sign"
      phSub rfl).1 rfl⟩

/-- Claim C5: a successful `submit` of a pending phase submits
`phase.task_id` with `phase.rendered` to the queue, persists
`submitted = true`, `completed_by = actor`, `completed = now`, and flips
the release to `shipped` exactly when every phase of the release is now
submitted. -/
theorem submit_success_effects
    (queue : String → String → Except Err Unit) (actor : String) (now : Nat)
    (r : Release) (pn : String) (ph : Phase)
    (h : lookupPhase r pn = Except.ok ph) (hns : ph.submitted = false)
    (hq : queue ph.task_id ph.rendered = Except.ok ()) :
    (schedule_phase queue actor now r pn).queueCalls
        = [(ph.task_id, ph.rendered)]
    ∧ ∃ r', (schedule_phase queue actor now r pn).result = Except.ok r'
        ∧ (schedule_phase queue actor now r pn).persisted = r'
        ∧ lookupPhase r' pn = Except.ok
            { ph with submitted := true, completed_by := some actor,
                      completed := some now }
        ∧ ((∀ p ∈ r'.phases, p.submitted = true) →
            r'.status = Status.shipped) := by
  obtain ⟨hfil, hname⟩ := lookupPhase_ok r pn ph h
  have hout : schedule_phase queue actor now r pn
      = ⟨{ r with
            phases := r.phases.map (fun p => if p.name == pn then
              { ph with submitted := true, completed_by := some actor,
                        completed := some now } else p),
            status := if (r.phases.map (fun p => if p.name == pn then
                { ph with submitted := true, completed_by := some actor,
                          completed := some now } else p)).all
                (fun p => p.submitted) then Status.shipped else r.status },
          [(ph.task_id, ph.rendered)],
          Except.ok { r with
            phases := r.phases.map (fun p => if p.name == pn then
              { ph with submitted := true, completed_by := some actor,
                        completed := some now } else p),
            status := if (r.phases.map (fun p => if p.name == pn then
                { ph with submitted := true, completed_by := some actor,
                          completed := some now } else p)).all
                (fun p => p.submitted) then Status.shipped else r.status }⟩ := by
    simp [schedule_phase, h, hns, hq]
  constructor
  · rw [hout]
  · refine ⟨(schedule_phase queue actor now r pn).persisted, ?_, rfl, ?_, ?_⟩
    · rw [hout]
    · apply lookupPhase_of_phases
      rw [hout]
      rw [show ({ r with
            phases := r.phases.map (fun p => if p.name == pn then
              { ph with submitted := true, completed_by := some actor,
                        completed := some now } else p),
            status := if (r.phases.map (fun p => if p.name == pn then
                { ph with submitted := true, completed_by := some actor,
                          completed := some now } else p)).all
                (fun p => p.submitted) then Status.shipped
              else r.status } : Release).phases
          = r.phases.map (fun p => if p.name == pn then
              { ph with submitted := true, completed_by := some actor,
                        completed := some now } else p) from rfl]
      rw [filter_update_phases pn
        { ph with submitted := true, completed_by := some actor,
                  completed := some now } hname, hfil]
      rfl
    · intro hall
      rw [hout] at hall ⊢
      have hcond : (r.phases.map (fun p => if p.name == pn then
          { ph with submitted := true, completed_by := some actor,
                    completed := some now } else p)).all
          (fun p => p.submitted) = true :=
        List.all_eq_true.mpr (fun p hp => hall p hp)
      show (if (r.phases.map (fun p => if p.name == pn then
          { ph with submitted := true, completed_by := some actor,
                    completed := some now } else p)).all
          (fun p => p.submitted) then Status.shipped else r.status)
        = Status.shipped
      rw [hcond]
      rfl

/-- Claim C5 witness: submitting the only (pending) phase of a concrete
release makes exactly one queue call and ships the release. -/
theorem submit_success_effects_witness :
    lookupPhase relW "build" = Except.ok phW
    ∧ phW.submitted = false
    ∧ qOk phW.task_id phW.rendered = Except.ok ()
    ∧ ((schedule_phase qOk "alice" 0 relW "build").queueCalls
          = [(phW.task_id, phW.rendered)]
      ∧ ∃ r', (schedule_phase qOk "alice" 0 relW "build").result
            = Except.ok r'
          ∧ (schedule_phase qOk "alice" 0 relW "build").persisted = r'
          ∧ lookupPhase r' "build" = Except.ok
              { phW with submitted := true, completed_by := some "alice",
                         completed := some 0 }
          ∧ ((∀ p ∈ r'.phases, p.submitted = true) →
              r'.status = Status.shipped)) :=
  ⟨rfl, rfl, rfl,
    submit_success_effects qOk "alice" 0 relW "build" phW rfl rfl rfl⟩

/-- Claim C6: when the queue rejects the submission, `schedule_phase`
reports the failure, the queue call is the only externally visible
action, and the persisted release (phase flags included) is exactly the
one before the call. -/
theorem submit_queue_failure_frame
    (queue : String → String → Except Err Unit) (actor : String) (now : Nat)
    (r : Release) (pn : String) (ph : Phase) (e : Err)
    (h : lookupPhase r pn = Except.ok ph) (hns : ph.submitted = false)
    (hq : queue ph.task_id ph.rendered = Except.error e) :
    schedule_phase queue actor now r pn
      = ⟨r, [(ph.task_id, ph.rendered)], Except.error e⟩ := by
  simp [schedule_phase, h, hns, hq]

/-- Claim C6 witness: a failing queue leaves a concrete release exactly
as it was. -/
theorem submit_queue_failure_frame_witness :
    lookupPhase relW "build" = Except.ok phW
    ∧ phW.submitted = false
    ∧ qDown phW.task_id phW.rendered = Except.error Err.queueError
    ∧ schedule_phase qDown "alice" 0 relW "build"
        = ⟨relW, [(phW.task_id, phW.rendered)], Except.error Err.queueError⟩ :=
  ⟨rfl, rfl, rfl,
    submit_queue_failure_frame qDown "alice" 0 relW "build" phW
      Err.queueError rfl rfl rfl⟩

/-! Lemmas about the cancellation loop. -/

lemma cancel_phases_attempted (env : Env) (l : List Phase) :
    (cancel_phases env l).1
      = l.takeWhile (cancelOk env) ++ (l.dropWhile (cancelOk env)).take 1 := by
  induction l with
  | nil => rfl
  | cons p rest ih =>
    cases hc : cancel_phase env p with
    | error e =>
      have hok : cancelOk env p = false := by simp [cancelOk, hc]
      simp [cancel_phases, hc, List.takeWhile_cons, List.dropWhile_cons, hok]
    | ok t =>
      have hok : cancelOk env p = true := by simp [cancelOk, hc]
      simp [cancel_phases, hc, List.takeWhile_cons, List.dropWhile_cons,
        hok, ih]

lemma cancel_phases_ok_of_all (env : Env) (l : List Phase)
    (h : ∀ p ∈ l, cancelOk env p = true) :
    (cancel_phases env l).1 = l
    ∧ (cancel_phases env l).2.2 = Except.ok ()
    ∧ (cancel_phases env l).2.1.length = l.length := by
  induction l with
  | nil => exact ⟨rfl, rfl, rfl⟩
  | cons p rest ih =>
    have hp := h p (List.mem_cons_self p rest)
    cases hc : cancel_phase env p with
    | error e => simp [cancelOk, hc] at hp
    | ok t =>
      obtain ⟨h1, h2, h3⟩ := ih (fun q hq => h q (List.mem_cons_of_mem p hq))
      simp [cancel_phases, hc, h1, h2, h3]

lemma cancel_phases_error_of_mem (env : Env) (l : List Phase) (p : Phase)
    (e : Err) (hp : p ∈ l) (he : cancel_phase env p = Except.error e) :
    ∃ e', (cancel_phases env l).2.2 = Except.error e' := by
  induction l with
  | nil => simp at hp
  | cons q rest ih =>
    cases hc : cancel_phase env q with
    | error e2 => exact ⟨e2, by simp [cancel_phases, hc]⟩
    | ok t =>
      rcases List.mem_cons.mp hp with rfl | hmem
      · exact absurd (hc.symm.trans he) (by simp)
      · obtain ⟨e', he'⟩ := ih hmem
        exact ⟨e', by simp [cancel_phases, hc, he']⟩

lemma abandon_ok_status (env : Env) (r : Release)
    (h : (abandon_release env r).result = Except.ok ()) :
    (abandon_release env r).persisted.status = Status.aborted := by
  rcases hcp : cancel_phases env (submitted_phases r) with ⟨att, ts, res⟩
  cases res with
  | ok u => simp [abandon_release, hcp]
  | error e => simp [abandon_release, hcp] at h

lemma abandon_error_frame (env : Env) (r : Release) (e : Err)
    (h : (abandon_release env r).result = Except.error e) :
    (abandon_release env r).persisted = r := by
  rcases hcp : cancel_phases env (submitted_phases r) with ⟨att, ts, res⟩
  cases res with
  | ok u => simp [abandon_release, hcp] at h
  | error e2 => simp [abandon_release, hcp]

/-- Claim C1: if the cancellation pipeline of any submitted phase fails,
`abandon_release` reports a failure instead of success, the release's
status remains `scheduled` (it is not set to `aborted`) no matter how
many other phases' cancellations succeeded, and the loop attempts exactly
the successful prefix plus the first failing phase, never the phases
after the first failure. -/
theorem abort_partial_failure (env : Env) (r : Release) (p : Phase)
    (e : Err) (hmem : p ∈ submitted_phases r)
    (hfail : cancel_phase env p = Except.error e)
    (hsched : r.status = Status.scheduled) :
    (abandon_release env r).persisted.status = Status.scheduled
    ∧ (∀ u, (abandon_release env r).result ≠ Except.ok u)
    ∧ (abandon_release env r).attempted
        = (submitted_phases r).takeWhile (cancelOk env)
          ++ ((submitted_phases r).dropWhile (cancelOk env)).take 1 := by
  obtain ⟨e', he'⟩ :=
    cancel_phases_error_of_mem env (submitted_phases r) p e hmem hfail
  have hatt := cancel_phases_attempted env (submitted_phases r)
  rcases hcp : cancel_phases env (submitted_phases r) with ⟨att, ts, res⟩
  rw [hcp] at he' hatt
  simp only at he' hatt
  subst he'
  refine ⟨?_, ?_, ?_⟩
  · simp [abandon_release, hcp, hsched]
  · intro u
    simp [abandon_release, hcp]
  · simp [abandon_release, hcp, hatt]

/-- Claim C1 witness: in a release with submitted phases `build` and
`sign` where cancelling `build` succeeds but cancelling `sign` fails at
the resolver, abort fails, leaves the status `scheduled`, and attempts
exactly `[build, sign]`. -/
theorem abort_partial_failure_witness :
    phSign ∈ submitted_phases relScn
    ∧ cancel_phase envPartial phSign = Except.error Err.notFound
    ∧ relScn.status = Status.scheduled
    ∧ ((abandon_release envPartial relScn).persisted.status
          = Status.scheduled
      ∧ (∀ u, (abandon_release envPartial relScn).result ≠ Except.ok u)
      ∧ (abandon_release envPartial relScn).attempted
          = (submitted_phases relScn).takeWhile (cancelOk envPartial)
            ++ ((submitted_phases relScn).dropWhile
                (cancelOk envPartial)).take 1) :=
  ⟨by decide, rfl, rfl,
    abort_partial_failure envPartial relScn phSign Err.notFound
      (by decide) rfl rfl⟩

/-- Claim C8: `abandon_release` runs the cancellation pipeline exactly
for the submitted phases of the release and no others; when every
pipeline succeeds it has submitted one cancellation task per submitted
phase, reports success, and persists the release with status `aborted`
and every other field unchanged. -/
theorem abort_success_effects (env : Env) (r : Release)
    (hall : ∀ p ∈ submitted_phases r, cancelOk env p = true) :
    (abandon_release env r).attempted = submitted_phases r
    ∧ (abandon_release env r).tasks.length = (submitted_phases r).length
    ∧ (abandon_release env r).result = Except.ok ()
    ∧ (abandon_release env r).persisted
        = { r with status := Status.aborted } := by
  obtain ⟨h1, h2, h3⟩ := cancel_phases_ok_of_all env (submitted_phases r) hall
  rcases hcp : cancel_phases env (submitted_phases r) with ⟨att, ts, res⟩
  rw [hcp] at h1 h2 h3
  simp only at h1 h2 h3
  subst h2
  exact ⟨by simp [abandon_release, hcp, h1],
    by simp [abandon_release, hcp, h3],
    by simp [abandon_release, hcp],
    by simp [abandon_release, hcp]⟩

/-- Claim C8 witness: the spec's scenario `[build(submitted),
sign(submitted), publish(not submitted)]`: abort attempts exactly
`[build, sign]`, submits two cancellation tasks, and ships the `aborted`
status. -/
theorem abort_success_effects_witness :
    (∀ p ∈ submitted_phases relScn, cancelOk envOk p = true)
    ∧ submitted_phases relScn = [phBuild, phSign]
    ∧ ((abandon_release envOk relScn).attempted = submitted_phases relScn
      ∧ (abandon_release envOk relScn).tasks.length
          = (submitted_phases relScn).length
      ∧ (abandon_release envOk relScn).result = Except.ok ()
      ∧ (abandon_release envOk relScn).persisted
          = { relScn with status := Status.aborted }) :=
  ⟨by decide, rfl, abort_success_effects envOk relScn (by decide)⟩

/-- Claim C10: abort is a frame on the phase records: whatever the
external outcomes and whether it succeeds or fails, the persisted release
keeps exactly the phases (all fields) it had before, and the persisted
release is either untouched or differs only in its `status` field. -/
theorem abort_phase_frame (env : Env) (r : Release) :
    (abandon_release env r).persisted.phases = r.phases
    ∧ ((abandon_release env r).persisted = r
      ∨ (abandon_release env r).persisted
          = { r with status := Status.aborted }) := by
  rcases hcp : cancel_phases env (submitted_phases r) with ⟨att, ts, res⟩
  cases res with
  | ok u => simp [abandon_release, hcp]
  | error e => simp [abandon_release, hcp]

/-- Claim C7: every cancellation task the pipeline successfully produces
carries the origin phase's `task_id` — the id pinned as the upstream
action-task reference at rendering — in its dependency list. -/
theorem cancel_task_dependency (env : Env) (p : Phase) (tid : String)
    (task : ActionTask) (h : cancel_phase env p = Except.ok (tid, task)) :
    p.task_id ∈ task.dependencies := by
  cases hf : env.fetchActions p.task_id with
  | error e => simp [cancel_phase, hf] at h
  | ok actions =>
    cases hg : generate_action_task "cancel-all" [] actions with
    | error e => simp [cancel_phase, hf, hg] at h
    | ok trip =>
      obtain ⟨atid, atask, ctx⟩ := trip
      cases hs : stripContext ctx with
      | error e => simp [cancel_phase, hf, hg, hs] at h
      | ok ctx2 =>
        simp only [cancel_phase, hf, hg, hs] at h
        split at h
        · simp at h
        · simp only [Except.ok.injEq, Prod.mk.injEq] at h
          obtain ⟨h1, h2⟩ := h
          subst h2
          simp [render_action_task]

/-- Claim C7 witness: the concrete cancellation task generated for the
submitted phase `phSub` (task id `T2`) depends on `T2`. -/
theorem cancel_task_dependency_witness :
    cancel_phase envOk phSub = Except.ok ("action-task-cancel-all",
      { dependencies := ["T2"], boundInput := [], pinnedSource := some "T2",
        renderedParams := [("other", PVal.vnat 1)] })
    ∧ phSub.task_id ∈
        (ActionTask.mk ["T2"] [] (some "T2")
          [("other", PVal.vnat 1)]).dependencies :=
  ⟨rfl,
    cancel_task_dependency envOk phSub "action-task-cancel-all"
      (ActionTask.mk ["T2"] [] (some "T2") [("other", PVal.vnat 1)]) rfl⟩

/-! Lemmas about parameter stripping. -/

lemma delParam_ok (ps ps' : List (String × PVal)) (k : String)
    (h : delParam ps k = Except.ok ps') :
    ∀ kv ∈ ps', kv.1 ≠ k ∧ kv ∈ ps := by
  unfold delParam at h
  split at h
  · simp only [Except.ok.injEq] at h
    subst h
    intro kv hkv
    have hm := List.mem_filter.mp hkv
    refine ⟨?_, hm.1⟩
    simpa using hm.2
  · simp at h

lemma stripContext_ok (ctx ctx' : Context)
    (h : stripContext ctx = Except.ok ctx') :
    ∀ kv ∈ ctx'.parameters, kv.1 ∉ long_params := by
  cases h1 : delParam ctx.parameters "existing_tasks" with
  | error e => simp [stripContext, h1] at h
  | ok ps1 =>
    cases h2 : delParam ps1 "release_history" with
    | error e => simp [stripContext, h1, h2] at h
    | ok ps2 =>
      cases h3 : delParam ps2 "release_partner_config" with
      | error e => simp [stripContext, h1, h2, h3] at h
      | ok ps3 =>
        simp only [stripContext, h1, h2, h3, Except.ok.injEq] at h
        subst h
        intro kv hkv
        obtain ⟨hne3, hm2⟩ := delParam_ok ps2 ps3 _ h3 kv hkv
        obtain ⟨hne2, hm1⟩ := delParam_ok ps1 ps2 _ h2 kv hm2
        obtain ⟨hne1, _⟩ := delParam_ok ctx.parameters ps1 _ h1 kv hm1
        simp [long_params, hne1, hne2, hne3]

/-- Claim C2 (amended): the strip runs before rendering, so every
cancellation task the pipeline successfully produces has none of the keys
`existing_tasks`, `release_history`, `release_partner_config` among its
rendered parameters; but the strip is an unconditional Python `del`,
which succeeds only when all three keys are present — the spec's scenario
with parameters `{existing_tasks: [...], other: 1}` raises `KeyError`
instead of yielding `{other: 1}`. -/
theorem cancel_task_params_stripped (env : Env) (p : Phase) (tid : String)
    (task : ActionTask) (h : cancel_phase env p = Except.ok (tid, task)) :
    ∀ kv ∈ task.renderedParams, kv.1 ∉ long_params := by
  cases hf : env.fetchActions p.task_id with
  | error e => simp [cancel_phase, hf] at h
  | ok actions =>
    cases hg : generate_action_task "cancel-all" [] actions with
    | error e => simp [cancel_phase, hf, hg] at h
    | ok trip =>
      obtain ⟨atid, atask, ctx⟩ := trip
      cases hs : stripContext ctx with
      | error e => simp [cancel_phase, hf, hg, hs] at h
      | ok ctx2 =>
        simp only [cancel_phase, hf, hg, hs] at h
        split at h
        · simp at h
        · simp only [Except.ok.injEq, Prod.mk.injEq] at h
          obtain ⟨h1, h2⟩ := h
          subst h2
          intro kv hkv
          exact stripContext_ok ctx ctx2 hs kv hkv

/-- Claim C2 witness: for a manifest carrying all three oversized keys
plus `other`, the generated cancellation task's rendered parameters are
exactly `[("other", 1)]`, and none of the stripped keys appear. -/
theorem cancel_task_params_stripped_witness :
    cancel_phase envOk phSub = Except.ok ("action-task-cancel-all",
      { dependencies := ["T2"], boundInput := [], pinnedSource := some "T2",
        renderedParams := [("other", PVal.vnat 1)] })
    ∧ (∀ kv ∈ [(("other" : String), PVal.vnat 1)], kv.1 ∉ long_params) :=
  ⟨rfl,
    cancel_task_params_stripped envOk phSub "action-task-cancel-all"
      (ActionTask.mk ["T2"] [] (some "T2") [("other", PVal.vnat 1)]) rfl⟩

/-- Claim C2 counterexample: on the spec's scenario manifest, whose
parameters are `{existing_tasks: [...], other: 1}` with the other two
oversized keys absent, the strip loop raises `KeyError` (Python `del` on
a missing key), so the pipeline errors instead of producing a context
with parameters `{other: 1}`. -/
theorem strip_scenario_counterexample :
    stripContext
        { parameters := [("existing_tasks", PVal.vlist ["t1", "t2"]),
                         ("other", PVal.vnat 1)] }
      = Except.error Err.keyError
    ∧ cancel_phase envMissing phSub = Except.error Err.keyError :=
  ⟨rfl, rfl⟩

/-! Lemmas about status transitions. -/

lemma status_if (c : Bool) (s : Status) :
    (if c then Status.shipped else s) = Status.shipped
    ∨ (if c then Status.shipped else s) = s := by
  cases c with
  | true => left; rfl
  | false => right; rfl

lemma schedule_phase_ok_status (queue : String → String → Except Err Unit)
    (actor : String) (now : Nat) (r : Release) (pn : String) (r' : Release)
    (h : (schedule_phase queue actor now r pn).result = Except.ok r') :
    r'.status = Status.shipped ∨ r'.status = r.status := by
  cases hl : lookupPhase r pn with
  | error e => simp [schedule_phase, hl] at h
  | ok ph =>
    by_cases hs : ph.submitted
    · simp [schedule_phase, hl, hs] at h
    · cases hq : queue ph.task_id ph.rendered with
      | error e => simp [schedule_phase, hl, hs, hq] at h
      | ok u =>
        simp only [schedule_phase, hl, hs, hq, Bool.false_eq_true, if_false,
          Except.ok.injEq] at h
        subst h
        exact status_if ((r.phases.map (fun p => if p.name == pn then
          { ph with submitted := true, completed_by := some actor,
                    completed := some now } else p)).all
          (fun p => p.submitted)) r.status

/-- Claim C3 (amended): a successful `schedule_phase` either flips the
status to `shipped` or leaves it unchanged, and `abandon_release` either
succeeds persisting `aborted` or fails leaving the release untouched, so
no operation ever returns a status to `scheduled`; the transitions are
not irreversible though: `schedule_phase` never checks the release
status, so submitting the last pending phase of an `aborted` release
moves its status from `aborted` to `shipped`. -/
theorem status_transitions_amended
    (queue : String → String → Except Err Unit) (actor : String) (now : Nat)
    (r : Release) (pn : String) (env : Env) (r2 : Release) :
    (∀ r', (schedule_phase queue actor now r pn).result = Except.ok r' →
        r'.status = Status.shipped ∨ r'.status = r.status)
    ∧ ((abandon_release env r2).result = Except.ok () →
        (abandon_release env r2).persisted.status = Status.aborted)
    ∧ (∀ e, (abandon_release env r2).result = Except.error e →
        (abandon_release env r2).persisted = r2) :=
  ⟨fun r' h => schedule_phase_ok_status queue actor now r pn r' h,
   fun h => abandon_ok_status env r2 h,
   fun e h => abandon_error_frame env r2 e h⟩

/-- Claim C3 witness: a concrete failed abort leaves the release exactly
as it was. -/
theorem status_transitions_amended_witness :
    (abandon_release envDown relSub).result = Except.error Err.notFound
    ∧ (abandon_release envDown relSub).persisted = relSub :=
  ⟨rfl,
    (status_transitions_amended qOk "alice" 0 relW "build" envDown
      relSub).2.2 Err.notFound rfl⟩

/-- Claim C3 counterexample: starting from a scheduled release with one
pending phase, abort moves it to `aborted`, after which submitting the
pending phase moves it to `shipped` — the forbidden transition
`aborted → shipped` is reachable, so status transitions are reversible. -/
theorem status_reversal_counterexample :
    relW.status = Status.scheduled
    ∧ (abandon_release envDown relW).persisted.status = Status.aborted
    ∧ (schedule_phase qOk "alice" 0
          (abandon_release envDown relW).persisted "build").result.map
        Release.status = Except.ok Status.shipped :=
  ⟨rfl, rfl, rfl⟩

/-! Lemmas about `list_releases`. -/

lemma list_releases_badRequest (db : List Release)
    (product branch version : Option String) (bn : Option Nat)
    (status : Option (List Status)) (h1 : truthyNat bn = true)
    (h2 : truthyStr version = false) :
    list_releases db product branch version bn status
      = Except.error Err.badRequest := by
  simp [list_releases, h1, h2, Except.map]

lemma list_releases_ok_scheduled (db : List Release)
    (product branch version : Option String) (bn : Option Nat)
    (rs : List Release)
    (h : list_releases db product branch version bn none = Except.ok rs) :
    ∀ r ∈ rs, r.status = Status.scheduled := by
  have hmem : ∀ rs0 : List Release, ∀ r : Release,
      r ∈ rs0.filter (fun x =>
        ([Status.scheduled] : List Status).contains x.status) →
      r.status = Status.scheduled := by
    intro rs0 r hr
    have hp := (List.mem_filter.mp hr).2
    simpa using hp.symm
  by_cases hv : truthyStr version = true
  · by_cases hb : truthyNat bn = true
    · simp only [list_releases, hv, hb, if_true, Except.map,
        Except.ok.injEq, Option.getD] at h
      subst h
      exact fun r hr => hmem _ r hr
    · simp only [list_releases, hv, hb, if_true, if_false, Except.map,
        Except.ok.injEq, Option.getD, Bool.false_eq_true] at h
      subst h
      exact fun r hr => hmem _ r hr
  · by_cases hb : truthyNat bn = true
    · have := list_releases_badRequest db product branch version bn none hb
        (by simpa using hv)
      rw [this] at h
      simp at h
    · simp only [list_releases, hv, hb, Except.map, Except.ok.injEq,
        Option.getD, Bool.false_eq_true, if_false] at h
      subst h
      exact fun r hr => hmem _ r hr

/-- Claim C9 (amended): filtering by a truthy (nonzero) `build_number`
without a truthy version fails with `BadRequest`, and with no status
filter only `scheduled` releases are returned; but Python truthiness
treats `build_number = 0` (and `version = ''`) as absent, so supplying
`build_number = 0` without a version returns a result list (with no
build-number filtering) instead of failing. -/
theorem list_releases_amended (db : List Release)
    (product branch version : Option String) (bn : Option Nat)
    (status : Option (List Status)) :
    (truthyNat bn = true → truthyStr version = false →
      list_releases db product branch version bn status
        = Except.error Err.badRequest)
    ∧ (∀ rs, list_releases db product branch version bn none = Except.ok rs →
        ∀ r ∈ rs, r.status = Status.scheduled) :=
  ⟨fun h1 h2 => list_releases_badRequest db product branch version bn status
      h1 h2,
   fun rs h => list_releases_ok_scheduled db product branch version bn rs h⟩

/-- Claim C9 witness: `build_number = 3` without a version is rejected
with `BadRequest` on a concrete database. -/
theorem list_releases_amended_witness :
    truthyNat (some 3) = true
    ∧ truthyStr (none : Option String) = false
    ∧ list_releases [relBn] none none none (some 3) none
        = Except.error Err.badRequest :=
  ⟨rfl, rfl,
    (list_releases_amended [relBn] none none none (some 3) none).1 rfl rfl⟩

/-- Claim C9 counterexample: supplying `build_number = 0` without a
version does not fail with `BadRequest`: the falsy `0` skips both the
guard and the filter, and the scheduled release with `build_number = 5`
is returned. -/
theorem list_releases_zero_counterexample :
    list_releases [relBn] none none none (some 0) none
      = Except.ok [relBn] := rfl

end Shipit
